import Mathlib

/-!
Shallow embedding of the scoring and aggregation engine of the
finance-research-agent repository (src/finance_core.py and
src/comprehensive_analyzer.py), with theorems checking the
specification's claims about it.

Python floats are modelled by rationals; a Python `Optional[float]`
field is an `Option ℚ`.  Python's truthiness test `if field:` over an
optional float is false for `None` and for `0.0`, which `tval` captures.
-/

/-- Python truthiness of an optional float: `None` and `0.0` are falsy.
`tval o` is `some x` exactly when the Python guard `if o:` passes,
carrying the guarded value `x`. -/
def tval (o : Option ℚ) : Option ℚ :=
  match o with
  | none => none
  | some x => if x = 0 then none else some x

/-- Python truthiness for an optional integer field. -/
def tvalInt (o : Option ℤ) : Option ℤ :=
  match o with
  | none => none
  | some x => if x = 0 then none else some x

/-- Python `max(0, min(100, score))`, the clamp every category score ends with. -/
def clamp_0_100 (x : ℚ) : ℚ := max 0 (min 100 x)

/-- src/finance_core.py, dataclass `FundamentalMetrics`. -/
structure FundamentalMetrics where
  pe_ratio : Option ℚ := none
  peg_ratio : Option ℚ := none
  pb_ratio : Option ℚ := none
  ps_ratio : Option ℚ := none
  ev_ebitda : Option ℚ := none
  roe : Option ℚ := none
  roa : Option ℚ := none
  profit_margin : Option ℚ := none
  debt_to_equity : Option ℚ := none
  current_ratio : Option ℚ := none
  revenue_growth : Option ℚ := none
  earnings_growth : Option ℚ := none
  score : ℚ := 0

/-- src/finance_core.py, `FinancialAnalyzer._calculate_fundamental_score`
(lines 476-520): base 50, additive rule tables over the truthy fields,
clamped to [0, 100]. -/
def _calculate_fundamental_score (fundamentals : FundamentalMetrics) : ℚ :=
  let score : ℚ := 50
  let score :=
    match tval fundamentals.pe_ratio with
    | some pe =>
        if pe < 15 then score + 10
        else if pe < 25 then score + 5
        else if pe > 40 then score - 10
        else score
    | none => score
  let score :=
    match tval fundamentals.roe with
    | some roe =>
        if roe > 20 then score + 15
        else if roe > 15 then score + 10
        else if roe > 10 then score + 5
        else if roe < 5 then score - 10
        else score
    | none => score
  let score :=
    match tval fundamentals.debt_to_equity with
    | some de =>
        if de < 0.3 then score + 10
        else if de < 0.6 then score + 5
        else if de > 1.0 then score - 10
        else score
    | none => score
  let score :=
    match tval fundamentals.revenue_growth with
    | some rg =>
        if rg > 20 then score + 15
        else if rg > 10 then score + 10
        else if rg > 5 then score + 5
        else if rg < 0 then score - 10
        else score
    | none => score
  clamp_0_100 score

/-- src/finance_core.py, dataclass `TechnicalMetrics`. -/
structure TechnicalMetrics where
  rsi : Option ℚ := none
  macd : Option ℚ := none
  macd_signal : Option ℚ := none
  sma_20 : Option ℚ := none
  sma_50 : Option ℚ := none
  sma_200 : Option ℚ := none
  bollinger_upper : Option ℚ := none
  bollinger_lower : Option ℚ := none
  support_level : Option ℚ := none
  resistance_level : Option ℚ := none
  trend : String := "NEUTRAL"
  score : ℚ := 0

/-- The dict `trend_scores` of `_calculate_technical_score` together with its
`.get(technicals.trend, 0)` lookup. -/
def trend_scores_get (trend : String) : ℚ :=
  if trend = "STRONG_BULLISH" then 20
  else if trend = "BULLISH" then 15
  else if trend = "NEUTRAL" then 0
  else if trend = "BEARISH" then -15
  else if trend = "STRONG_BEARISH" then -20
  else 0

/-- src/finance_core.py, `FinancialAnalyzer._calculate_technical_score`
(lines 522-563). -/
def _calculate_technical_score (technicals : TechnicalMetrics) (current_price : ℚ) : ℚ :=
  let score : ℚ := 50
  let score :=
    match tval technicals.rsi with
    | some r =>
        if 40 ≤ r ∧ r ≤ 60 then score + 10
        else if 30 ≤ r ∧ r ≤ 40 then score + 5
        else if r < 30 then score + 15
        else if 60 ≤ r ∧ r ≤ 70 then score + 5
        else if r > 70 then score - 10
        else score
    | none => score
  let score := score + trend_scores_get technicals.trend
  let score :=
    match tval technicals.macd, tval technicals.macd_signal with
    | some m, some s => if m > s then score + 10 else score - 5
    | _, _ => score
  let score :=
    match tval technicals.sma_20, tval technicals.sma_50 with
    | some s20, some s50 =>
        if current_price > s20 ∧ s20 > s50 then score + 10
        else if current_price < s20 ∧ s20 < s50 then score - 10
        else score
    | _, _ => score
  clamp_0_100 score

/-- src/finance_core.py, `generate_recommendation` lines 356-365: the overall
score is the fixed weighted sum of the three pillar scores with weights
`fundamental_weight = 0.5`, `technical_weight = 0.3`, `sentiment_weight = 0.2`. -/
def overall_score (fundamentals_score technicals_score sentiment_score : ℚ) : ℚ :=
  fundamentals_score * 0.5 + technicals_score * 0.3 + sentiment_score * 0.2

/-- src/finance_core.py, `generate_recommendation` lines 367-377: the action
thresholds over the overall score. -/
def recommendation_action (overall : ℚ) : String :=
  if overall ≥ 80 then "STRONG_BUY"
  else if overall ≥ 65 then "BUY"
  else if overall ≥ 35 then "HOLD"
  else if overall ≥ 20 then "SELL"
  else "STRONG_SELL"

/-- src/finance_core.py, `generate_recommendation` lines 401-407: the price
target before rounding, from the current price, the overall score and the
already determined action string. -/
def price_target (current_price overall : ℚ) (action : String) : Option ℚ :=
  if action ∈ ["BUY", "STRONG_BUY"] then
    some (current_price * (1 + (overall - 50) / 500))
  else if action ∈ ["SELL", "STRONG_SELL"] then
    some (current_price * (1 - (50 - overall) / 500))
  else none

/-- `np.std` of the list of the three pillar scores as `generate_recommendation`
line 381 calls it: the population standard deviation (square root of the mean
of the squared deviations from the mean). -/
noncomputable def np_std3 (a b c : ℝ) : ℝ :=
  Real.sqrt (((a - (a + b + c) / 3) ^ 2 + (b - (a + b + c) / 3) ^ 2 +
    (c - (a + b + c) / 3) ^ 2) / 3)

/-- src/finance_core.py, `generate_recommendation` lines 379-382:
`confidence = 100 - np.std(scores) * 2`, then `max(20, min(95, confidence))`. -/
noncomputable def recommendation_confidence
    (fundamentals_score technicals_score sentiment_score : ℝ) : ℝ :=
  let confidence :=
    100 - np_std3 fundamentals_score technicals_score sentiment_score * 2
  max 20 (min 95 confidence)

/-- src/finance_core.py, `generate_recommendation` line 410: the risk level
from the clamped confidence. -/
noncomputable def risk_level (confidence : ℝ) : String :=
  if confidence > 80 then "LOW" else if confidence > 60 then "MEDIUM" else "HIGH"

/-- src/comprehensive_analyzer.py, dataclass `FinancialHealthMetrics`. -/
structure FinancialHealthMetrics where
  piotroski_score : Option ℤ := none
  altman_z_score : Option ℚ := none
  beneish_m_score : Option ℚ := none
  working_capital : Option ℚ := none
  cash_conversion_cycle : Option ℤ := none
  asset_quality : Option ℚ := none
  debt_coverage_ratio : Option ℚ := none
  score : ℚ := 0

/-- src/comprehensive_analyzer.py, dataclass `MomentumMetrics`. -/
structure MomentumMetrics where
  price_momentum_1m : Option ℚ := none
  price_momentum_3m : Option ℚ := none
  price_momentum_6m : Option ℚ := none
  relative_strength_index_long : Option ℚ := none
  earnings_revision_trend : Option String := none
  estimate_revisions : Option ℚ := none
  earnings_surprise_history : List ℚ := []
  revenue_consistency : Option ℚ := none
  score : ℚ := 0

/-- src/comprehensive_analyzer.py, dataclass `RiskMetrics`. -/
structure RiskMetrics where
  beta : Option ℚ := none
  sharpe_ratio : Option ℚ := none
  sortino_ratio : Option ℚ := none
  max_drawdown : Option ℚ := none
  value_at_risk_95 : Option ℚ := none
  volatility_30d : Option ℚ := none
  volatility_90d : Option ℚ := none
  downside_deviation : Option ℚ := none
  risk_score : ℚ := 0

/-- src/comprehensive_analyzer.py, dataclass `ValuationMetrics`. -/
structure ValuationMetrics where
  dcf_estimate : Option ℚ := none
  graham_number : Option ℚ := none
  peter_lynch_fair_value : Option ℚ := none
  ev_sales : Option ℚ := none
  ev_ebit : Option ℚ := none
  price_to_fcf : Option ℚ := none
  enterprise_value : Option ℚ := none
  intrinsic_value_range : Option ℚ × Option ℚ := (none, none)
  valuation_score : ℚ := 0

/-- src/comprehensive_analyzer.py, dataclass `QualityMetrics`. -/
structure QualityMetrics where
  earnings_quality : Option ℚ := none
  accruals_ratio : Option ℚ := none
  cash_flow_to_earnings : Option ℚ := none
  revenue_recognition_quality : Option ℚ := none
  accounting_red_flags : List String := []
  audit_quality : Option String := none
  management_efficiency : Option ℚ := none
  score : ℚ := 0

/-- src/comprehensive_analyzer.py, `_calculate_health_score` (lines 782-798). -/
def _calculate_health_score (health : FinancialHealthMetrics) : ℚ :=
  let score : ℚ := 50
  let score :=
    match tvalInt health.piotroski_score with
    | some p => score + ((p : ℚ) / 9) * 30
    | none => score
  let score :=
    match tval health.altman_z_score with
    | some z =>
        if z > 3.0 then score + 20
        else if z > 1.8 then score + 10
        else score - 20
    | none => score
  clamp_0_100 score

/-- src/comprehensive_analyzer.py, `_calculate_momentum_score` (lines 800-814). -/
def _calculate_momentum_score (momentum : MomentumMetrics) : ℚ :=
  let score : ℚ := 50
  let score :=
    match tval momentum.price_momentum_1m with
    | some p1m =>
        if p1m > 10 then score + 20
        else if p1m > 0 then score + 10
        else if p1m < -10 then score - 20
        else score - 10
    | none => score
  clamp_0_100 score

/-- src/comprehensive_analyzer.py, `_calculate_risk_score` (lines 816-836). -/
def _calculate_risk_score (risk : RiskMetrics) : ℚ :=
  let score : ℚ := 50
  let score :=
    match tval risk.sharpe_ratio with
    | some sr =>
        if sr > 1.0 then score + 25
        else if sr > 0.5 then score + 15
        else if sr < 0 then score - 20
        else score
    | none => score
  let score :=
    match tval risk.max_drawdown with
    | some dd =>
        if dd > -10 then score + 15
        else if dd > -20 then score + 5
        else if dd < -40 then score - 25
        else score
    | none => score
  clamp_0_100 score

/-- src/comprehensive_analyzer.py, `_calculate_valuation_score` (lines 838-859). -/
def _calculate_valuation_score (valuation : ValuationMetrics) (current_price : ℚ) : ℚ :=
  let score : ℚ := 50
  let score :=
    match tval valuation.dcf_estimate, tval (some current_price) with
    | some dcf, some cp =>
        let ratio := cp / dcf
        if ratio < 0.8 then score + 25
        else if ratio < 1.0 then score + 15
        else if ratio > 1.5 then score - 25
        else if ratio > 1.2 then score - 15
        else score
    | _, _ => score
  let score :=
    match tval valuation.price_to_fcf with
    | some pfcf =>
        if pfcf < 15 then score + 15
        else if pfcf > 30 then score - 15
        else score
    | none => score
  clamp_0_100 score

/-- src/comprehensive_analyzer.py, `_calculate_quality_score` (lines 861-876). -/
def _calculate_quality_score (quality : QualityMetrics) : ℚ :=
  let score : ℚ := 70
  let score :=
    match tval quality.cash_flow_to_earnings with
    | some cfe =>
        if cfe > 1.2 then score + 20
        else if cfe > 0.8 then score + 10
        else score - 20
    | none => score
  let score := score - (quality.accounting_red_flags.length : ℚ) * 10
  clamp_0_100 score

/-- src/comprehensive_analyzer.py, `ComprehensiveAnalyzer.__init__`
(lines 151-159): the dict `self.composite_weights` together with the
`.get(component, 0.1)` lookup `_calculate_composite_score` performs. -/
def composite_weights_get (component : String) : ℚ :=
  if component = "fundamental" then 0.25
  else if component = "technical" then 0.15
  else if component = "financial_health" then 0.20
  else if component = "valuation" then 0.15
  else if component = "quality" then 0.10
  else if component = "momentum" then 0.10
  else if component = "risk" then 0.05
  else 0.1

/-- One iteration of the accumulation loop of `_calculate_composite_score`:
a component is added to the weighted sum and the total weight only when its
score is strictly positive. -/
def composite_step (acc : ℚ × ℚ) (entry : ℚ × ℚ) : ℚ × ℚ :=
  if entry.1 > 0 then (acc.1 + entry.1 * entry.2, acc.2 + entry.2) else acc

/-- src/comprehensive_analyzer.py, `_calculate_composite_score` (lines 895-916):
the `scores` dict in its insertion order, folded by the loop, then
`weighted_sum / total_weight if total_weight > 0 else 50`. -/
def _calculate_composite_score (health : FinancialHealthMetrics)
    (valuation : ValuationMetrics) (quality : QualityMetrics)
    (momentum : MomentumMetrics) (risk : RiskMetrics) : ℚ :=
  let scores : List (ℚ × ℚ) :=
    [(health.score, composite_weights_get "financial_health"),
     (valuation.valuation_score, composite_weights_get "valuation"),
     (quality.score, composite_weights_get "quality"),
     (momentum.score, composite_weights_get "momentum"),
     (risk.risk_score, composite_weights_get "risk")]
  let acc := scores.foldl composite_step (0, 0)
  if acc.2 > 0 then acc.1 / acc.2 else 50

/-- src/comprehensive_analyzer.py, `_calculate_piotroski_score` (lines 651-687),
over the values the function extracts: `info.get('returnOnAssets')`, the
operating-cash-flow entry of the cash-flow frame (present or not),
`info.get('marketCap', 0)`, `info.get('debtToEquity')` and
`info.get('currentRatio')`.  The no-dilution point is granted unconditionally
and the total is capped at 9. -/
def _calculate_piotroski_score (roa : Option ℚ) (operating_cash_flow : Option ℚ)
    (marketCap : Option ℚ) (debt_to_equity : Option ℚ)
    (current_ratio : Option ℚ) : ℕ :=
  let score : ℕ := 0
  let score :=
    match tval roa with
    | some x => if x > 0 then score + 1 else score
    | none => score
  let score :=
    match operating_cash_flow with
    | some ocf => if ocf > 0 then score + 1 else score
    | none => score
  let score := if marketCap.getD 0 > 10000000000 then score + 2 else score
  let score :=
    match tval debt_to_equity with
    | some de => if de < 50 then score + 1 else score
    | none => score
  let score :=
    match tval current_ratio with
    | some cr => if cr > 1.2 then score + 1 else score
    | none => score
  let score := score + 1
  min score 9

/-- The constant bankruptcy-risk warning string of `_generate_warnings`. -/
def bankruptcyWarning : String := "⚠️ Elevated bankruptcy risk (low Altman Z-score)"

/-- src/comprehensive_analyzer.py, `_generate_warnings` (lines 965-979). -/
def _generate_warnings (health : FinancialHealthMetrics) (quality : QualityMetrics)
    (risk : RiskMetrics) : List String :=
  let warnings : List String := []
  let warnings :=
    match tval health.altman_z_score with
    | some z => if z < 1.8 then warnings ++ [bankruptcyWarning] else warnings
    | none => warnings
  let warnings :=
    if quality.accounting_red_flags.length ≠ 0 then
      warnings ++ ["⚠️ " ++ toString quality.accounting_red_flags.length ++
        " accounting red flags detected"]
    else warnings
  let warnings :=
    match tval risk.max_drawdown with
    | some dd =>
        if dd < -40 then warnings ++ ["⚠️ Very high historical volatility and drawdowns"]
        else warnings
    | none => warnings
  warnings

/-- src/comprehensive_analyzer.py, `_generate_key_insights` (lines 933-963),
including the hard-coded `current_price = 100` placeholder of its valuation
block and the final `insights[:5]` truncation. -/
def _generate_key_insights (_symbol : String) (health : FinancialHealthMetrics)
    (valuation : ValuationMetrics) (quality : QualityMetrics)
    (_momentum : MomentumMetrics) (risk : RiskMetrics) : List String :=
  let insights : List String := []
  let insights :=
    match tvalInt health.piotroski_score with
    | some p =>
        if p ≥ 7 then
          insights ++ ["Strong financial health (Piotroski score: " ++ toString p ++ "/9)"]
        else if p ≤ 3 then
          insights ++ ["Weak financial health (Piotroski score: " ++ toString p ++ "/9)"]
        else insights
    | none => insights
  let insights :=
    match tval valuation.dcf_estimate with
    | some dcf =>
        let current_price : ℚ := 100
        if dcf > current_price * 1.2 then
          insights ++ ["Trading below estimated intrinsic value"]
        else if dcf < current_price * 0.8 then
          insights ++ ["Trading above estimated intrinsic value"]
        else insights
    | none => insights
  let insights :=
    match tval quality.cash_flow_to_earnings with
    | some cfe =>
        if cfe > 1.2 then
          insights ++ ["Strong cash flow generation relative to earnings"]
        else insights
    | none => insights
  let insights :=
    match tval risk.max_drawdown with
    | some dd =>
        if dd > -10 then insights ++ ["Low historical volatility and drawdown"]
        else if dd < -30 then
          insights ++ ["High historical volatility with significant drawdowns"]
        else insights
    | none => insights
  insights.take 5

/-- A pandas/numpy double as `_calculate_rsi` manipulates it: an exact rational,
a signed infinity, or NaN.  The rationals that arise in the RSI computation are
exactly representable enough for the branch structure; what matters to the
claims is the IEEE special-value propagation, which the operations below follow. -/
inductive PFloat where
  | num (q : ℚ)
  | posInf
  | negInf
  | nan
deriving DecidableEq

/-- IEEE addition on `PFloat` (NaN propagates, opposite infinities give NaN). -/
def PFloat.add : PFloat → PFloat → PFloat
  | nan, _ => nan
  | _, nan => nan
  | num a, num b => num (a + b)
  | num _, posInf => posInf
  | num _, negInf => negInf
  | posInf, num _ => posInf
  | negInf, num _ => negInf
  | posInf, posInf => posInf
  | negInf, negInf => negInf
  | posInf, negInf => nan
  | negInf, posInf => nan

/-- IEEE subtraction on `PFloat`. -/
def PFloat.sub : PFloat → PFloat → PFloat
  | nan, _ => nan
  | _, nan => nan
  | num a, num b => num (a - b)
  | num _, posInf => negInf
  | num _, negInf => posInf
  | posInf, num _ => posInf
  | negInf, num _ => negInf
  | posInf, posInf => nan
  | negInf, negInf => nan
  | posInf, negInf => posInf
  | negInf, posInf => negInf

/-- IEEE division on `PFloat`, with every zero taken as `+0` (the only zeros
reachable in the RSI computation are positive zeros): `a/0` is `±inf` for
`a ≠ 0` and NaN for `0/0`; a finite value over an infinity is `0`. -/
def PFloat.div : PFloat → PFloat → PFloat
  | nan, _ => nan
  | _, nan => nan
  | num a, num b =>
      if b = 0 then (if a = 0 then nan else if a > 0 then posInf else negInf)
      else num (a / b)
  | num _, posInf => num 0
  | num _, negInf => num 0
  | posInf, num b => if b ≥ 0 then posInf else negInf
  | negInf, num b => if b ≥ 0 then negInf else posInf
  | posInf, posInf => nan
  | posInf, negInf => nan
  | negInf, posInf => nan
  | negInf, negInf => nan

/-- `prices.diff()` without its leading NaN: the consecutive differences
`p[i] - p[i-1]` of a price series. -/
def rsi_deltas (prices : List ℚ) : List ℚ :=
  (prices.tail.zip prices).map (fun ab => ab.1 - ab.2)

/-- The series `delta.where(delta > 0, 0)` of `_calculate_rsi`: the leading
NaN of `prices.diff()` compares false against 0 and is replaced by 0, every
other delta is kept when positive and replaced by 0 otherwise.  Empty for an
empty price series. -/
def rsi_gain_series (prices : List ℚ) : List ℚ :=
  match prices with
  | [] => []
  | _ :: _ => 0 :: (rsi_deltas prices).map (fun d => if d > 0 then d else 0)

/-- The series `(-delta.where(delta < 0, 0))` of `_calculate_rsi`: the leading
NaN becomes 0, a negative delta contributes its magnitude, anything else 0. -/
def rsi_loss_series (prices : List ℚ) : List ℚ :=
  match prices with
  | [] => []
  | _ :: _ => 0 :: (rsi_deltas prices).map (fun d => if d < 0 then -d else 0)

/-- The last entry of `series.rolling(window=w).mean()`: NaN while fewer than
`w` observations exist, otherwise the mean of the last `w` entries. -/
def rolling_mean_last (xs : List ℚ) (w : ℕ) : PFloat :=
  if xs.length < w then PFloat.nan
  else PFloat.num ((xs.drop (xs.length - w)).sum / (w : ℚ))

/-- src/finance_core.py, `FinancialAnalyzer._calculate_rsi` (lines 421-431):
`rs = gain / loss`, `rsi = 100 - (100 / (1 + rs))`, returning
`rsi.iloc[-1]`.  The bare `except` catches only the `IndexError` that
`iloc[-1]` raises on an empty series, so `None` is returned exactly for an
empty price series; otherwise the last RSI value (a number, an infinity or
NaN) is returned. -/
def _calculate_rsi (prices : List ℚ) (period : ℕ) : Option PFloat :=
  match prices with
  | [] => none
  | _ :: _ =>
    let gain := rolling_mean_last (rsi_gain_series prices) period
    let loss := rolling_mean_last (rsi_loss_series prices) period
    let rs := gain.div loss
    some ((PFloat.num 100).sub ((PFloat.num 100).div ((PFloat.num 1).add rs)))

/-- Claim C2's stated law for the comprehensive composite, written from the
claim's words: the weighted average, over exactly the five categories
financial_health (0.20), valuation (0.15), quality (0.10), momentum (0.10)
and risk (0.05), of those category scores strictly greater than 0, the weight
denominator summed over only the included categories; neutral 50 when no
category score is strictly positive (in particular when every score is 0). -/
def composite_score_claim (h v q m r : ℚ) : ℚ :=
  if 0 < h ∨ 0 < v ∨ 0 < q ∨ 0 < m ∨ 0 < r then
    ((if 0 < h then h * 0.20 else 0) + (if 0 < v then v * 0.15 else 0) +
     (if 0 < q then q * 0.10 else 0) + (if 0 < m then m * 0.10 else 0) +
     (if 0 < r then r * 0.05 else 0)) /
    ((if 0 < h then (0.20 : ℚ) else 0) + (if 0 < v then (0.15 : ℚ) else 0) +
     (if 0 < q then (0.10 : ℚ) else 0) + (if 0 < m then (0.10 : ℚ) else 0) +
     (if 0 < r then (0.05 : ℚ) else 0))
  else 50

/-! Helper lemmas shared by the claim theorems. -/

/-- The clamp `max(0, min(100, score))` always lands in [0, 100]. -/
theorem clamp_0_100_mem (x : ℚ) : 0 ≤ clamp_0_100 x ∧ clamp_0_100 x ≤ 100 := by
  unfold clamp_0_100
  exact ⟨le_max_left _ _, max_le (by norm_num) (min_le_left _ _)⟩

/-- The weight the composite dict yields for financial_health. -/
theorem cw_financial_health : composite_weights_get "financial_health" = 0.20 := by
  simp [composite_weights_get]

/-- The weight the composite dict yields for valuation. -/
theorem cw_valuation : composite_weights_get "valuation" = 0.15 := by
  simp [composite_weights_get]

/-- The weight the composite dict yields for quality. -/
theorem cw_quality : composite_weights_get "quality" = 0.10 := by
  simp [composite_weights_get]

/-- The weight the composite dict yields for momentum. -/
theorem cw_momentum : composite_weights_get "momentum" = 0.10 := by
  simp [composite_weights_get]

/-- The weight the composite dict yields for risk. -/
theorem cw_risk : composite_weights_get "risk" = 0.05 := by
  simp [composite_weights_get]

set_option maxHeartbeats 4000000 in
/-- The accumulation loop of `_calculate_composite_score` computes exactly the
renormalized weighted average stated by the spec. -/
theorem composite_matches_claim_formula :
    ∀ (health : FinancialHealthMetrics) (valuation : ValuationMetrics)
      (quality : QualityMetrics) (momentum : MomentumMetrics) (risk : RiskMetrics),
      _calculate_composite_score health valuation quality momentum risk =
        composite_score_claim health.score valuation.valuation_score quality.score
          momentum.score risk.risk_score := by
  intro health valuation quality momentum risk
  simp only [_calculate_composite_score, cw_financial_health, cw_valuation, cw_quality,
    cw_momentum, cw_risk, composite_score_claim, List.foldl, composite_step, gt_iff_lt]
  split_ifs
  any_goals tauto
  any_goals norm_num
  all_goals (exfalso; norm_num at *)

/-- `_generate_warnings` is the concatenation of its three independent
conditional warning blocks, in source order. -/
theorem generate_warnings_eq :
    ∀ (health : FinancialHealthMetrics) (quality : QualityMetrics) (risk : RiskMetrics),
      _generate_warnings health quality risk =
        (match tval health.altman_z_score with
         | some z => if z < 1.8 then [bankruptcyWarning] else []
         | none => []) ++
        (if quality.accounting_red_flags.length ≠ 0 then
          ["⚠️ " ++ toString quality.accounting_red_flags.length ++
            " accounting red flags detected"]
         else []) ++
        (match tval risk.max_drawdown with
         | some dd =>
            if dd < -40 then ["⚠️ Very high historical volatility and drawdowns"] else []
         | none => []) := by
  intro health quality risk
  unfold _generate_warnings
  cases hz : tval health.altman_z_score <;> cases hd : tval risk.max_drawdown <;>
    split_ifs <;> simp <;> split_ifs <;> simp

/-- The gain series of a nonempty price list has the list's length. -/
theorem rsi_gain_series_length (p : ℚ) (ps : List ℚ) :
    (rsi_gain_series (p :: ps)).length = ps.length + 1 := by
  simp [rsi_gain_series, rsi_deltas]

/-- The loss series of a nonempty price list has the list's length. -/
theorem rsi_loss_series_length (p : ℚ) (ps : List ℚ) :
    (rsi_loss_series (p :: ps)).length = ps.length + 1 := by
  simp [rsi_loss_series, rsi_deltas]

/-- Every entry of the gain series is nonnegative. -/
theorem rsi_gain_series_nonneg (prices : List ℚ) :
    ∀ x ∈ rsi_gain_series prices, 0 ≤ x := by
  intro x hx
  cases prices with
  | nil => simp [rsi_gain_series] at hx
  | cons p ps =>
    simp [rsi_gain_series] at hx
    rcases hx with rfl | ⟨d, _, rfl⟩
    · exact le_refl 0
    · split_ifs with h
      · exact le_of_lt h
      · exact le_refl 0

/-- Every entry of the loss series is nonnegative. -/
theorem rsi_loss_series_nonneg (prices : List ℚ) :
    ∀ x ∈ rsi_loss_series prices, 0 ≤ x := by
  intro x hx
  cases prices with
  | nil => simp [rsi_loss_series] at hx
  | cons p ps =>
    simp [rsi_loss_series] at hx
    rcases hx with rfl | ⟨d, _, rfl⟩
    · exact le_refl 0
    · split_ifs with h
      · linarith
      · exact le_refl 0

/-- With enough observations, the last rolling mean of a list of nonnegative
entries is a nonnegative number. -/
theorem rolling_mean_last_num (xs : List ℚ) (w : ℕ) (hlen : ¬ xs.length < w)
    (hnn : ∀ x ∈ xs, 0 ≤ x) :
    ∃ q : ℚ, rolling_mean_last xs w = PFloat.num q ∧ 0 ≤ q := by
  refine ⟨(xs.drop (xs.length - w)).sum / (w : ℚ), by
    unfold rolling_mean_last
    rw [if_neg hlen], ?_⟩
  apply div_nonneg
  · apply List.sum_nonneg
    intro x hx
    exact hnn x (List.drop_subset _ _ hx)
  · exact Nat.cast_nonneg w

/-- A nonempty price series shorter than the period yields RSI = NaN (pandas:
the rolling means are still NaN at the last index), not `None`. -/
theorem rsi_short (p : ℚ) (ps : List ℚ) (hlen : (p :: ps).length < 14) :
    _calculate_rsi (p :: ps) 14 = some PFloat.nan := by
  have hlen' : ps.length + 1 < 14 := by simpa using hlen
  have hg : rolling_mean_last (rsi_gain_series (p :: ps)) 14 = PFloat.nan := by
    unfold rolling_mean_last
    rw [if_pos (by rw [rsi_gain_series_length]; exact hlen')]
  have hl : rolling_mean_last (rsi_loss_series (p :: ps)) 14 = PFloat.nan := by
    unfold rolling_mean_last
    rw [if_pos (by rw [rsi_loss_series_length]; exact hlen')]
  simp [_calculate_rsi, hg, hl, PFloat.div, PFloat.add, PFloat.sub]

/-! The claims. -/

/-- C1, counterexample: with only the fundamental sub-score available
(fundamental = 60, technical = sentiment = 0), `generate_recommendation`
computes `overall_score = 30`, not the available sub-score 60 that weight
renormalization would give. -/
theorem claim_C1_counterexample :
    overall_score 60 0 0 = 30 ∧ overall_score 60 0 0 ≠ 60 := by
  norm_num [overall_score]

/-- C1 (amended): in the standard recommendation path the weights are never
renormalized: `overall_score` is always the fixed sum
`fundamental*0.5 + technical*0.3 + sentiment*0.2`, so when exactly one of the
three standard sub-scores is available (the other two are 0) the overall
score equals that sub-score times its fixed weight (0.5, 0.3 or 0.2), not the
sub-score itself. -/
theorem claim_C1 :
    ∀ x f t s : ℚ,
      overall_score f t s = f * 0.5 + t * 0.3 + s * 0.2 ∧
      overall_score x 0 0 = x * 0.5 ∧
      overall_score 0 x 0 = x * 0.3 ∧
      overall_score 0 0 x = x * 0.2 := by
  intro x f t s
  norm_num [overall_score]

/-- C2: the comprehensive composite score is the weighted average, over
exactly the five categories financial_health (0.20), valuation (0.15),
quality (0.10), momentum (0.10) and risk (0.05), of those category scores
strictly greater than 0, with the weight denominator summed over only the
included categories; and when every category score is 0 (total weight 0) the
composite score is exactly 50 (shown by the all-default record instance,
whose five scores are all 0). -/
theorem claim_C2 :
    (∀ (health : FinancialHealthMetrics) (valuation : ValuationMetrics)
      (quality : QualityMetrics) (momentum : MomentumMetrics) (risk : RiskMetrics),
      _calculate_composite_score health valuation quality momentum risk =
        composite_score_claim health.score valuation.valuation_score quality.score
          momentum.score risk.risk_score) ∧
    _calculate_composite_score {} {} {} {} {} = 50 :=
  ⟨composite_matches_claim_formula, rfl⟩

/-- C3: the recommended action is determined by the fixed thresholds
(≥80 STRONG_BUY, [65,80) BUY, [35,65) HOLD, [20,35) SELL, <20 STRONG_SELL),
including the eight boundary values of the spec. -/
theorem claim_C3 :
    ∀ s : ℚ,
      (80 ≤ s → recommendation_action s = "STRONG_BUY") ∧
      (65 ≤ s ∧ s < 80 → recommendation_action s = "BUY") ∧
      (35 ≤ s ∧ s < 65 → recommendation_action s = "HOLD") ∧
      (20 ≤ s ∧ s < 35 → recommendation_action s = "SELL") ∧
      (s < 20 → recommendation_action s = "STRONG_SELL") ∧
      recommendation_action 80 = "STRONG_BUY" ∧ recommendation_action 79.99 = "BUY" ∧
      recommendation_action 65 = "BUY" ∧ recommendation_action 64.99 = "HOLD" ∧
      recommendation_action 35 = "HOLD" ∧ recommendation_action 34.99 = "SELL" ∧
      recommendation_action 20 = "SELL" ∧ recommendation_action 19.99 = "STRONG_SELL" := by
  intro s
  refine ⟨fun h => ?_, fun h => ?_, fun h => ?_, fun h => ?_, fun h => ?_,
    ?_, ?_, ?_, ?_, ?_, ?_, ?_, ?_⟩
  · unfold recommendation_action
    rw [if_pos (by linarith)]
  · obtain ⟨h1, h2⟩ := h
    unfold recommendation_action
    rw [if_neg (by linarith), if_pos (by linarith)]
  · obtain ⟨h1, h2⟩ := h
    unfold recommendation_action
    rw [if_neg (by linarith), if_neg (by linarith), if_pos (by linarith)]
  · obtain ⟨h1, h2⟩ := h
    unfold recommendation_action
    rw [if_neg (by linarith), if_neg (by linarith), if_neg (by linarith),
      if_pos (by linarith)]
  · unfold recommendation_action
    rw [if_neg (by linarith), if_neg (by linarith), if_neg (by linarith),
      if_neg (by linarith)]
  all_goals norm_num [recommendation_action]

/-- C3, witness: the overall score 90 is mapped to STRONG_BUY. -/
theorem claim_C3_witness : recommendation_action 90 = "STRONG_BUY" :=
  (claim_C3 90).1 (by norm_num)

/-- C4: every category score returned by a score calculator (fundamental,
technical, financial-health, momentum, risk, valuation, quality) lies in
[0, 100], whatever its metric record holds, because each rule table is
clamped by `max(0, min(100, score))`. -/
theorem claim_C4 :
    ∀ (f : FundamentalMetrics) (t : TechnicalMetrics) (cp : ℚ)
      (h : FinancialHealthMetrics) (m : MomentumMetrics) (r : RiskMetrics)
      (v : ValuationMetrics) (cp2 : ℚ) (q : QualityMetrics),
      (0 ≤ _calculate_fundamental_score f ∧ _calculate_fundamental_score f ≤ 100) ∧
      (0 ≤ _calculate_technical_score t cp ∧ _calculate_technical_score t cp ≤ 100) ∧
      (0 ≤ _calculate_health_score h ∧ _calculate_health_score h ≤ 100) ∧
      (0 ≤ _calculate_momentum_score m ∧ _calculate_momentum_score m ≤ 100) ∧
      (0 ≤ _calculate_risk_score r ∧ _calculate_risk_score r ≤ 100) ∧
      (0 ≤ _calculate_valuation_score v cp2 ∧ _calculate_valuation_score v cp2 ≤ 100) ∧
      (0 ≤ _calculate_quality_score q ∧ _calculate_quality_score q ≤ 100) := by
  intro f t cp h m r v cp2 q
  exact ⟨clamp_0_100_mem _, clamp_0_100_mem _, clamp_0_100_mem _, clamp_0_100_mem _,
    clamp_0_100_mem _, clamp_0_100_mem _, clamp_0_100_mem _⟩

/-- C5: the recommendation confidence equals 100 minus twice the population
standard deviation of the three pillar scores, clamped to [20, 95]; it
therefore always lies in [20, 95], and the risk level is LOW when
confidence > 80, MEDIUM when 60 < confidence ≤ 80, and HIGH otherwise. -/
theorem claim_C5 :
    ∀ f t s : ℝ,
      recommendation_confidence f t s =
        max 20 (min 95 (100 - 2 * np_std3 f t s)) ∧
      20 ≤ recommendation_confidence f t s ∧
      recommendation_confidence f t s ≤ 95 ∧
      (recommendation_confidence f t s > 80 →
        risk_level (recommendation_confidence f t s) = "LOW") ∧
      (60 < recommendation_confidence f t s ∧ recommendation_confidence f t s ≤ 80 →
        risk_level (recommendation_confidence f t s) = "MEDIUM") ∧
      (recommendation_confidence f t s ≤ 60 →
        risk_level (recommendation_confidence f t s) = "HIGH") := by
  intro f t s
  refine ⟨?_, ?_, ?_, fun h => ?_, fun h => ?_, fun h => ?_⟩
  · unfold recommendation_confidence
    rw [mul_comm]
  · exact le_max_left _ _
  · exact max_le (by norm_num) (min_le_left _ _)
  · unfold risk_level
    rw [if_pos h]
  · obtain ⟨h1, h2⟩ := h
    unfold risk_level
    rw [if_neg (by linarith), if_pos h1]
  · unfold risk_level
    rw [if_neg (by linarith), if_neg (by linarith)]

/-- C5, witness: three equal pillar scores (60, 60, 60) give zero dispersion,
so the confidence clamps to 95 and the risk level is LOW. -/
theorem claim_C5_witness :
    risk_level (recommendation_confidence 60 60 60) = "LOW" ∧
    20 ≤ recommendation_confidence 60 60 60 ∧ recommendation_confidence 60 60 60 ≤ 95 := by
  have h : recommendation_confidence 60 60 60 = 95 := by
    unfold recommendation_confidence np_std3
    norm_num
  exact ⟨(claim_C5 60 60 60).2.2.2.1 (by rw [h]; norm_num),
    (claim_C5 60 60 60).2.1, (claim_C5 60 60 60).2.2.1⟩

/-- C6 (amended): `_calculate_rsi` never raises; it returns `None` exactly for
the empty price series (the `IndexError` of `iloc[-1]` caught by the bare
`except`); for a nonempty series with fewer than `period` observations it
returns NaN, not `None`; when the rolling loss-average is zero and the
gain-average positive it returns exactly 100 (the claim said `None`); and
whenever it returns a finite number, that number lies in [0, 100]. -/
theorem claim_C6 :
    ∀ prices : List ℚ,
      (_calculate_rsi prices 14 = none ↔ prices = []) ∧
      (prices ≠ [] → prices.length < 14 → _calculate_rsi prices 14 = some PFloat.nan) ∧
      (∀ g : ℚ, ¬ prices.length < 14 →
        rolling_mean_last (rsi_loss_series prices) 14 = PFloat.num 0 →
        rolling_mean_last (rsi_gain_series prices) 14 = PFloat.num g → 0 < g →
        _calculate_rsi prices 14 = some (PFloat.num 100)) ∧
      (∀ x : ℚ, _calculate_rsi prices 14 = some (PFloat.num x) → 0 ≤ x ∧ x ≤ 100) := by
  intro prices
  cases prices with
  | nil =>
    refine ⟨by simp [_calculate_rsi], by simp, fun g hlen _ _ _ => ?_, fun x hx => ?_⟩
    · simp at hlen
    · simp [_calculate_rsi] at hx
  | cons p ps =>
    refine ⟨by simp [_calculate_rsi], fun _ hlen => rsi_short p ps hlen,
      fun g hlen hl hg hgpos => ?_, fun x hx => ?_⟩
    · simp [_calculate_rsi, hl, hg, PFloat.div, hgpos.ne', hgpos, PFloat.add, PFloat.sub]
    · by_cases hlen : (p :: ps).length < 14
      · rw [rsi_short p ps hlen] at hx
        simp at hx
      · obtain ⟨g, hg, hgnn⟩ :=
          rolling_mean_last_num (rsi_gain_series (p :: ps)) 14
            (by rw [rsi_gain_series_length]; simpa using hlen) (rsi_gain_series_nonneg _)
        obtain ⟨l, hl, hlnn⟩ :=
          rolling_mean_last_num (rsi_loss_series (p :: ps)) 14
            (by rw [rsi_loss_series_length]; simpa using hlen) (rsi_loss_series_nonneg _)
        by_cases hl0 : l = 0
        · subst hl0
          by_cases hg0 : g = 0
          · subst hg0
            simp [_calculate_rsi, hl, hg, PFloat.div, PFloat.add, PFloat.sub] at hx
          · have hgpos : 0 < g := lt_of_le_of_ne hgnn (Ne.symm hg0)
            simp [_calculate_rsi, hl, hg, PFloat.div, hg0, hgpos, PFloat.add,
              PFloat.sub] at hx
            constructor <;> simp [← hx]
        · have hlpos : 0 < l := lt_of_le_of_ne hlnn (Ne.symm hl0)
          have hgl : 0 ≤ g / l := div_nonneg hgnn (le_of_lt hlpos)
          have hne : (1 : ℚ) + g / l ≠ 0 := by linarith
          simp [_calculate_rsi, hl, hg, PFloat.div, hl0, hne, PFloat.add, PFloat.sub] at hx
          have hx' : x = 100 - 100 / (1 + g / l) := by linarith [hx]
          have h1 : 100 / (1 + g / l) ≤ 100 := div_le_self (by norm_num) (by linarith)
          have h2 : 0 < 100 / (1 + g / l) := by positivity
          constructor <;> rw [hx'] <;> linarith

/-- C6, counterexample: for the strictly rising series 1..15 the rolling
loss-average is zero, yet `_calculate_rsi` does not return unavailable: it
returns the number 100 (IEEE: `rs = gain/0 = +inf`, `100 - 100/(1+inf) = 100`),
refuting the claim that a zero loss-average yields `None`. -/
theorem claim_C6_counterexample :
    rolling_mean_last (rsi_loss_series [1,2,3,4,5,6,7,8,9,10,11,12,13,14,15]) 14 =
      PFloat.num 0 ∧
    _calculate_rsi [1,2,3,4,5,6,7,8,9,10,11,12,13,14,15] 14 = some (PFloat.num 100) ∧
    _calculate_rsi [1,2,3,4,5,6,7,8,9,10,11,12,13,14,15] 14 ≠ none := by
  have h2 : _calculate_rsi [1,2,3,4,5,6,7,8,9,10,11,12,13,14,15] 14 =
      some (PFloat.num 100) := by
    norm_num [_calculate_rsi, rolling_mean_last, rsi_gain_series, rsi_loss_series,
      rsi_deltas, List.tail, List.zip, List.zipWith, List.length, List.drop, List.sum,
      PFloat.add, PFloat.sub, PFloat.div]
  refine ⟨?_, h2, by rw [h2]; simp⟩
  norm_num [rolling_mean_last, rsi_loss_series, rsi_deltas, List.tail, List.zip,
    List.zipWith, List.length, List.drop, List.sum]

/-- C6, witness: the amended theorem applied to the concrete series 1..15,
whose loss-average is 0 and gain-average is 1, yields RSI = 100. -/
theorem claim_C6_witness :
    _calculate_rsi [1,2,3,4,5,6,7,8,9,10,11,12,13,14,15] 14 = some (PFloat.num 100) :=
  (claim_C6 [1,2,3,4,5,6,7,8,9,10,11,12,13,14,15]).2.2.1 1
    (by norm_num)
    (by norm_num [rolling_mean_last, rsi_loss_series, rsi_deltas, List.tail, List.zip,
      List.zipWith, List.length, List.drop, List.sum])
    (by norm_num [rolling_mean_last, rsi_gain_series, rsi_deltas, List.tail, List.zip,
      List.zipWith, List.length, List.drop, List.sum])
    (by norm_num)

/-- C7: the code at the failing input.  A present `debt_to_equity = 0` is
treated by the truthiness guard `if fundamentals.debt_to_equity:` exactly like
a missing field: the score stays 50 instead of entering the below-0.3 band
(+10, as the nearby value 0.2 does, giving 60), and `revenue_growth = 0` is
likewise indistinguishable from an absent `revenue_growth`. -/
theorem claim_C7_code_behavior :
    _calculate_fundamental_score { debt_to_equity := some 0 } = 50 ∧
    _calculate_fundamental_score { debt_to_equity := some 0 } =
      _calculate_fundamental_score { debt_to_equity := none } ∧
    _calculate_fundamental_score { debt_to_equity := some 0.2 } = 60 ∧
    _calculate_fundamental_score { revenue_growth := some 0 } =
      _calculate_fundamental_score { revenue_growth := none } := by
  norm_num [_calculate_fundamental_score, tval, clamp_0_100]

/-- C8: the price target is `current_price * (1 + (overall-50)/500)` when the
action is BUY or STRONG_BUY, `current_price * (1 - (50-overall)/500)` when the
action is SELL or STRONG_SELL, and `None` when the action is HOLD. -/
theorem claim_C8 :
    ∀ current_price overall : ℚ,
      (recommendation_action overall = "BUY" ∨ recommendation_action overall = "STRONG_BUY" →
        price_target current_price overall (recommendation_action overall) =
          some (current_price * (1 + (overall - 50) / 500))) ∧
      (recommendation_action overall = "SELL" ∨ recommendation_action overall = "STRONG_SELL" →
        price_target current_price overall (recommendation_action overall) =
          some (current_price * (1 - (50 - overall) / 500))) ∧
      (recommendation_action overall = "HOLD" →
        price_target current_price overall (recommendation_action overall) = none) := by
  intro p o
  refine ⟨fun h => ?_, fun h => ?_, fun h => ?_⟩
  · rcases h with h | h <;> rw [h] <;> simp [price_target]
  · rcases h with h | h <;> rw [h] <;> simp [price_target]
  · rw [h]
    simp [price_target]

/-- C8, witness: overall score 70 (a BUY) at current price 100 gives the
target `100 * (1 + (70-50)/500)`. -/
theorem claim_C8_witness :
    price_target 100 70 (recommendation_action 70) = some (100 * (1 + (70 - 50) / 500)) :=
  (claim_C8 100 70).1 (Or.inl (by norm_num [recommendation_action]))

/-- C9 (amended): warning and insight generation is a pure function of the
metric values.  A present, nonzero Altman Z-score below 1.8 puts the
bankruptcy-risk warning in the warnings list (so Z = 1.5 does), Z = 3.5 does
not, but a Z-score of exactly 0 also does not — the truthiness guard
`if health.altman_z_score and ...` treats 0.0 as missing, so "any value below
1.8" fails at 0.  The key-insights list never holds more than 5 strings. -/
theorem claim_C9 :
    ∀ (health : FinancialHealthMetrics) (quality : QualityMetrics) (risk : RiskMetrics)
      (valuation : ValuationMetrics) (momentum : MomentumMetrics) (symbol : String),
      (∀ z : ℚ, health.altman_z_score = some z → z ≠ 0 → z < 1.8 →
        bankruptcyWarning ∈ _generate_warnings health quality risk) ∧
      bankruptcyWarning ∈ _generate_warnings { altman_z_score := some 1.5 } {} {} ∧
      bankruptcyWarning ∉ _generate_warnings { altman_z_score := some 3.5 } {} {} ∧
      bankruptcyWarning ∉ _generate_warnings { altman_z_score := some 0 } {} {} ∧
      (_generate_key_insights symbol health valuation quality momentum risk).length ≤ 5 := by
  intro health quality risk valuation momentum symbol
  refine ⟨fun z hz hz0 hz18 => ?_, ?_, ?_, ?_, ?_⟩
  · rw [generate_warnings_eq]
    have ht : tval health.altman_z_score = some z := by
      rw [hz]
      simp [tval, hz0]
    rw [ht]
    simp [if_pos hz18]
  · simp [generate_warnings_eq, tval, bankruptcyWarning]
    norm_num
  · simp [generate_warnings_eq, tval]
    norm_num
  · simp [generate_warnings_eq, tval]
  · simp only [_generate_key_insights]
    rw [List.length_take]
    exact min_le_left _ _

/-- C9, witness: the amended theorem applied at Altman Z = 1.5 — the
bankruptcy-risk warning is emitted. -/
theorem claim_C9_witness :
    bankruptcyWarning ∈ _generate_warnings { altman_z_score := some 1.5 } {} {} :=
  (claim_C9 { altman_z_score := some 1.5 } {} {} {} {} "AAPL").1 1.5 rfl
    (by norm_num) (by norm_num)

/-- C9, counterexample: an Altman Z-score of exactly 0 is below 1.8, yet the
bankruptcy-risk warning is not emitted, because Python's `if 0.0:` is false. -/
theorem claim_C9_counterexample :
    (0 : ℚ) < 1.8 ∧
    bankruptcyWarning ∉ _generate_warnings { altman_z_score := some 0 } {} {} := by
  constructor
  · norm_num
  · simp [generate_warnings_eq, tval]

/-- C10: whenever the simplified Piotroski calculation returns a value, that
value lies between 1 and 9 inclusive: the no-dilution point is granted
unconditionally and the total is capped at 9, so a score of 0 is never
produced. -/
theorem claim_C10 :
    ∀ roa operating_cash_flow marketCap debt_to_equity current_ratio : Option ℚ,
      1 ≤ _calculate_piotroski_score roa operating_cash_flow marketCap
        debt_to_equity current_ratio ∧
      _calculate_piotroski_score roa operating_cash_flow marketCap
        debt_to_equity current_ratio ≤ 9 := by
  intro roa ocf mc de cr
  simp only [_calculate_piotroski_score]
  constructor <;> omega
